import Mathlib

/-!
# Verification of the draf scenario-management / sweep engine

Shallow embedding of `src/draf/core/case_study.py` (and the status table of
`src/draf/core/mappings.py`).  Entity values are modelled by `Val` (rationals
stand in for Python numbers, strings for entity references), entity stores by
insertion-ordered association lists with Python attribute-dict semantics
(overwrite keeps the position, a new key is appended), and Python exceptions by
`Except DrafError`.

The classes `Scenario` and `Scenarios` live in `scenario.py` / `entity_stores.py`,
which are not part of the sources here; the operations of theirs that the
claims need (`_special_copy`, `get_entity`, `update_params`, `optimize`, and the
registry container itself) are modelled from the spec, and each such definition
says so in its doc comment.
-/

namespace Draf

deriving instance DecidableEq for Except

/-- An entity value: a number (Python ints/floats modelled as rationals) or a
string (which sweep entries may use as a reference to another entity). -/
inductive Val where
  | num (q : ℚ)
  | str (s : String)
deriving DecidableEq, Repr

/-- Gurobi status taxonomy, from `GRB_OPT_STATUS` in `src/draf/core/mappings.py`. -/
inductive GrbStatus where
  | LOADED
  | OPTIMAL
  | INFEASIBLE
  | INF_OR_UNBD
  | UNBOUNDED
  | CUTOFF
  | ITERATION_LIMIT
  | NODE_LIMIT
  | TIME_LIMIT
  | SOLUTION_LIMIT
  | INTERRUPTED
  | NUMERIC
  | SUBOPTIMAL
  | INPROGRESS
  | USER_OBJ_LIMIT
deriving DecidableEq, Repr

/-- The numeric status codes of `GRB_OPT_STATUS` in `src/draf/core/mappings.py`. -/
def GRB_OPT_STATUS : Nat → Option GrbStatus
  | 1 => some .LOADED
  | 2 => some .OPTIMAL
  | 3 => some .INFEASIBLE
  | 4 => some .INF_OR_UNBD
  | 5 => some .UNBOUNDED
  | 6 => some .CUTOFF
  | 7 => some .ITERATION_LIMIT
  | 8 => some .NODE_LIMIT
  | 9 => some .TIME_LIMIT
  | 10 => some .SOLUTION_LIMIT
  | 11 => some .INTERRUPTED
  | 12 => some .NUMERIC
  | 13 => some .SUBOPTIMAL
  | 14 => some .INPROGRESS
  | 15 => some .USER_OBJ_LIMIT
  | _ => none

/-- Python exceptions raised by the embedded code paths. -/
inductive DrafError where
  /-- `AttributeError`: missing attribute (unknown scenario id / unknown entity). -/
  | attributeError
  /-- `ValueError`: unpacking `zip(*[])` into three names in `add_scens`. -/
  | valueError
  /-- `TypeError`: `zip(*None)` in `add_scens` when `scen_vars is None`. -/
  | typeError
  /-- `IndexError`: `scens_ids[-1]` on an empty registry. -/
  | indexError
deriving DecidableEq, Repr

/-- An entity store: insertion-ordered name/value pairs
(Python attribute dict of `Params` / `Results`). -/
abbrev Store := List (String × Val)

namespace Store

/-- Python `getattr` on a store: the value stored under `k`, if any. -/
def get? : Store → String → Option Val
  | [], _ => none
  | p :: st, k => if p.1 = k then some p.2 else get? st k

/-- Python `setattr` semantics on an attribute dict: overwriting keeps the
position of the key, a new key is appended at the end. -/
def set : Store → String → Val → Store
  | [], k, v => [(k, v)]
  | p :: st, k, v => if p.1 = k then (k, v) :: st else p :: set st k v

end Store

/-- Lower/upper bound metadata of a decision variable
(the `lb`/`ub` fields of `sc.vars._meta[name]`). -/
structure VarMeta where
  lb : Val
  ub : Val
deriving DecidableEq, Repr

/-- One scenario, per the data model of the spec (`scenario.py` is not in the
sources): identity strings, a parameter store, variable-bound metadata, results
present only after a successful solve, and the last solve status. -/
structure Scenario where
  id : String
  name : String
  doc : String
  params : Store
  varsMeta : List (String × VarMeta)
  res : Option Store
  status : Option GrbStatus
deriving DecidableEq, Repr

namespace Scenario

/-- The variable-bound metadata registered under `n`, if any
(`sc.vars._meta[n]`). -/
def varMeta? (sc : Scenario) (n : String) : Option VarMeta :=
  (sc.varsMeta.find? (fun p => p.1 = n)).map (fun p => p.2)

/-- Modelled from the spec: `Scenario._special_copy` lives in `scenario.py`,
which is not in the sources.  Per the spec (section 3, Lifecycle) a derivation
duplicates parameters and variable-bound metadata by value and resets `results`
and the solve status to unsolved.  (Value-copying is implicit in a pure
embedding.) -/
def special_copy (sc : Scenario) : Scenario :=
  { sc with res := none, status := none }

/-- Modelled from the spec: `Scenario.get_entity` lives in `scenario.py`, which
is not in the sources.  Per the spec (section 4.2) it reads the entity's current
value and fails with `UnknownEntity` (an `AttributeError`) if the name is
absent; parameters are consulted first, then results. -/
def get_entity (sc : Scenario) (n : String) : Option Val :=
  match sc.params.get? n with
  | some v => some v
  | none => (sc.res.getD []).get? n

/-- Modelled from the spec: `Scenario.update_params` lives in `scenario.py`,
which is not in the sources.  Per the spec (section 4.1) a parameter `set`
overwrites or creates the named parameter. -/
def update_params (sc : Scenario) (kvs : List (String × Val)) : Scenario :=
  { sc with params := kvs.foldl (fun st kv => st.set kv.1 kv.2) sc.params }

/-- The routing rule of the sweep loop body in `CaseStudy.add_scens`
(`src/draf/core/case_study.py`, lines 306-313): a name registered in
`sc.vars._meta` has its `lb` and `ub` fixed to the value, any other name is
written as a parameter via `update_params`. -/
def routeValue (sc : Scenario) (ent : String) (value : Val) : Scenario :=
  if sc.varsMeta.any (fun p => p.1 = ent) then
    { sc with
      varsMeta := sc.varsMeta.map (fun p =>
        if p.1 = ent then (p.1, { lb := value, ub := value }) else p) }
  else
    sc.update_params [(ent, value)]

/-- One `(ent_name, value)` step of the sweep loop in `CaseStudy.add_scens`
(`src/draf/core/case_study.py`, lines 302-313): a string value is first
resolved by `get_entity` (raising if the referenced entity is absent), then the
routing rule is applied. -/
def apply_entity_value (sc : Scenario) (ent : String) (value : Val) :
    Except DrafError Scenario :=
  match value with
  | .str s =>
    match sc.get_entity s with
    | some w => .ok (sc.routeValue ent w)
    | none => .error .attributeError
  | .num q => .ok (sc.routeValue ent (.num q))

/-- Modelled from the spec: `Scenario.optimize` lives in `scenario.py`, which is
not in the sources.  Per the spec (sections 4.2 and 4.5): on success (status
OPTIMAL or SUBOPTIMAL) the solver's results are populated, otherwise `results`
is left empty; in both cases the status is recorded. -/
def optimize (sc : Scenario) (status : GrbStatus) (results : Store) : Scenario :=
  if status = .OPTIMAL ∨ status = .SUBOPTIMAL then
    { sc with status := some status, res := some results }
  else
    { sc with status := some status, res := none }

end Scenario

/-- The scenario registry (`self.scens`, a `Scenarios` attribute object from
`entity_stores.py`, which is not in the sources).  Modelled from the spec
(section 3, ScenarioRegistry) and Python attribute semantics: an
insertion-ordered mapping from id to scenario. -/
abbrev Registry := List (String × Scenario)

namespace Registry

/-- The scenario ids in insertion order (`cs.scens_ids`). -/
def keys (r : Registry) : List String := r.map (fun p => p.1)

/-- Python `getattr(self.scens, k)`: the scenario stored under `k`, if any. -/
def getAttr : Registry → String → Option Scenario
  | [], _ => none
  | p :: r, k => if p.1 = k then some p.2 else getAttr r k

/-- Python `setattr(self.scens, k, sc)`: overwriting keeps the position of the
key, a new key is appended at the end. -/
def setAttr : Registry → String → Scenario → Registry
  | [], k, sc => [(k, sc)]
  | p :: r, k, sc => if p.1 = k then (k, sc) :: r else p :: setAttr r k sc

/-- Python `delattr(self.scens, k)`: removes the key, `none` (an
`AttributeError`) if it is absent. -/
def delAttr : Registry → String → Option Registry
  | [], _ => none
  | p :: r, k => if p.1 = k then some r else (delAttr r k).map (fun r2 => p :: r2)

end Registry

/-- The case study: owns the scenario registry and the configured objective
variables (`CaseStudy.__init__`, `src/draf/core/case_study.py`; the time-index,
plotting and persistence state is out of scope). -/
structure CaseStudy where
  scens : Registry
  obj_vars : List String
deriving DecidableEq, Repr

/-- A scenario built from scratch (`Scenario(...)` with `based_on=None` in
`CaseStudy.add_scen`): empty stores, unsolved. -/
def freshScenario (id name doc : String) : Scenario :=
  { id := id, name := name, doc := doc, params := [], varsMeta := [],
    res := none, status := none }

/-- The row comprehension `[getattr(sc.res, var) for var in self.obj_vars]` of
`CaseStudy.pareto`, over an already-present result store: reading a missing
objective variable raises an `AttributeError`. -/
def paretoVals (r : Store) : List String → Except DrafError (List Val)
  | [] => .ok []
  | v :: vs =>
    match r.get? v with
    | none => .error .attributeError
    | some x =>
      match paretoVals r vs with
      | .error e => .error e
      | .ok xs => .ok (x :: xs)

/-- One iteration of the `for name, sc in self.scens_dic.items()` loop of
`CaseStudy.pareto`: `sc.res` missing raises an `AttributeError`, otherwise the
row of objective values is appended under the scenario's registry id. -/
def paretoStep (obj_vars : List String) (rows : List (String × List Val))
    (p : String × Scenario) : Except DrafError (List (String × List Val)) :=
  match p.2.res with
  | none => .error .attributeError
  | some r =>
    match paretoVals r obj_vars with
    | .error e => .error e
    | .ok vals => .ok (rows ++ [(p.1, vals)])

namespace CaseStudy

/-- `CaseStudy.valid_scens` (`src/draf/core/case_study.py`, lines 129-132):
the scenarios for which `hasattr(sc, "res")` holds, i.e. whose results are
populated. -/
def valid_scens (cs : CaseStudy) : Registry :=
  cs.scens.filter (fun p => p.2.res.isSome)

/-- `CaseStudy.pareto` (`src/draf/core/case_study.py`, lines 148-155): one row
per registered scenario, keyed by its registry id, holding
`getattr(sc.res, var)` for each configured objective variable.  A missing `res`
attribute or a missing objective value raises an `AttributeError`. -/
def pareto (cs : CaseStudy) : Except DrafError (List (String × List Val)) :=
  cs.scens.foldlM (paretoStep cs.obj_vars) []

/-- `CaseStudy.REF_scen` (`src/draf/core/case_study.py`, lines 157-164):
`getattr(self.scens, "REF")`, falling back to `scens_list[0]` on
`AttributeError`; `none` models the `IndexError` on an empty registry. -/
def REF_scen (cs : CaseStudy) : Option Scenario :=
  match cs.scens.getAttr "REF" with
  | some sc => some sc
  | none => (cs.scens.map (fun p => p.2)).head?

/-- `CaseStudy.add_scen` (`src/draf/core/case_study.py`, lines 192-240):
resolve `based_on_last`, default the id to `"sc" ++ <registry size>`, build the
scenario from scratch or as a `_special_copy` of the base (overwriting
id/name/doc), and register it with `setattr` (which silently overwrites an
existing id). -/
def add_scen (cs : CaseStudy) (id : Option String) (name doc : String)
    (based_on : Option String) (based_on_last : Bool) :
    Except DrafError (CaseStudy × Scenario) :=
  match
    (if based_on_last then
      match cs.scens.keys.getLast? with
      | none => Except.error DrafError.indexError
      | some last => Except.ok (some last, last ++ " + " ++ doc)
    else Except.ok (based_on, doc) :
      Except DrafError (Option String × String)) with
  | .error e => .error e
  | .ok (based_on, doc) =>
    let id := id.getD ("sc" ++ toString cs.scens.length)
    match based_on with
    | none =>
      let sc := freshScenario id name doc
      .ok ({ cs with scens := cs.scens.setAttr id sc }, sc)
    | some b =>
      match cs.scens.getAttr b with
      | none => .error .attributeError
      | some base =>
        let sc := { base.special_copy with id := id, name := name, doc := doc }
        .ok ({ cs with scens := cs.scens.setAttr id sc }, sc)

end CaseStudy

/-- One sweep axis: long entity name, short label, list of candidate values
(one tuple of `scen_vars`). -/
abbrev SweepAxis := String × String × List Val

/-- `np.linspace a b n`: `n` evenly spaced points from `a` to `b` inclusive. -/
def linspace (a b : ℚ) (n : Nat) : List ℚ :=
  match n with
  | 0 => []
  | 1 => [a]
  | m + 2 =>
    (List.range (m + 2)).map (fun i => a + (b - a) * i / (m + 1))

/-- String form of a value as used for composite names and docs
(`df.T.astype(str)` in `add_scens`; Lean's rendering of rationals stands in
for Python's `str` of numbers, which only affects display strings). -/
def valStr : Val → String
  | .num q => toString q
  | .str s => s

/-- The composite display name of one product point: the axis short labels, each
concatenated with the string form of the chosen value, joined by `"_"`
(`"_".join(dfn[x].values)` in `add_scens`). -/
def comboName (shorts : List String) (combo : List Val) : String :=
  String.intercalate "_" ((shorts.zip combo).map (fun p => p.1 ++ valStr p.2))

/-- The doc string of one product point: `"long=value"` pairs joined by `"; "`
(`"; ".join(doc_list)` in `add_scens`). -/
def comboDoc (longs : List String) (combo : List Val) : String :=
  String.intercalate "; " ((longs.zip combo).map
    (fun p => p.1 ++ "=" ++ valStr p.2))

/-- The cartesian product of the axis value-lists in axis order, the first axis
varying slowest (`pd.MultiIndex.from_product(value_lists)` in `add_scens`). -/
def productCombos : List (List Val) → List (List Val)
  | [] => [[]]
  | vs :: rest => vs.flatMap (fun v => (productCombos rest).map (fun c => v :: c))

namespace CaseStudy

/-- The body of the per-combination loop of `CaseStudy.add_scens`
(`src/draf/core/case_study.py`, lines 294-313): register a scenario derived
from `based_on` under the fallback id `"sc" ++ <registry size>` with the
composite name and doc, stamp `timelog_params_ = 0`, then apply every
`(ent_name, value)` pair of the combination and store the mutated scenario
back under its id. -/
def sweepStep (based_on : String) (longs shorts : List String)
    (cs : CaseStudy) (combo : List Val) : Except DrafError CaseStudy :=
  let id := "sc" ++ toString cs.scens.length
  match cs.add_scen (some id) (comboName shorts combo) (comboDoc longs combo)
      (some based_on) false with
  | .error e => .error e
  | .ok (cs, sc) =>
    let sc := sc.update_params [("timelog_params_", Val.num 0)]
    match (longs.zip combo).foldlM
        (fun s p => s.apply_entity_value p.1 p.2) sc with
    | .error e => .error e
    | .ok sc => .ok { cs with scens := cs.scens.setAttr id sc }

/-- `CaseStudy.add_scens` (`src/draf/core/case_study.py`, lines 242-318).
`scen_vars = None` with no Pareto points builds (but does not raise!) a
`RuntimeError` and then fails with a `TypeError` at `zip(*None)`; a positive
`nParetoPoints` appends the synthetic `k_PTO_alpha_` axis; an empty axis list
fails with a `ValueError` at the three-name unpacking of `zip(*[])`; otherwise
one scenario per cartesian-product point is created via `sweepStep`, and
`del_REF` finally removes the base scenario. -/
def add_scens (cs : CaseStudy) (scen_vars : Option (List SweepAxis))
    (nParetoPoints : Nat) (del_REF : Bool) (based_on : String) :
    Except DrafError CaseStudy :=
  match
    (match scen_vars with
     | some l => .ok l
     | none =>
       if nParetoPoints > 0 then .ok []
       else .error DrafError.typeError :
       Except DrafError (List SweepAxis)) with
  | .error e => .error e
  | .ok sv =>
    let sv := if nParetoPoints > 0 then
        sv ++ [("k_PTO_alpha_", "a", (linspace 0 1 nParetoPoints).map Val.num)]
      else sv
    if sv.isEmpty then
      .error DrafError.valueError
    else
      let longs := sv.map (fun a => a.1)
      let shorts := sv.map (fun a => a.2.1)
      let valueLists := sv.map (fun a => a.2.2)
      match (productCombos valueLists).foldlM
          (sweepStep based_on longs shorts) cs with
      | .error e => .error e
      | .ok cs =>
        if del_REF then
          match cs.scens.delAttr based_on with
          | some r => .ok { cs with scens := r }
          | none => .error .attributeError
        else .ok cs

end CaseStudy

/-- `np.array(l).mean()`: the arithmetic mean of a list of rationals. -/
def listMean (l : List ℚ) : ℚ := l.sum / l.length

/-- Reads a numeric entity from a result store; anything else raises
(`sc.res.C_TOT_` on a missing or non-numeric value). -/
def getNumEnt (r : Store) (n : String) : Except DrafError ℚ :=
  match r.get? n with
  | some (.num q) => .ok q
  | _ => .error .attributeError

/-- The transient probe scenario of `improve_pareto_norm_factors`: a
`_special_copy` of the basis scenario with id `str(i)`, name
`"pareto_improver"`, empty doc, and `k_PTO_alpha_` set to `i`. -/
@[reducible] def paretoProbe (basis : Scenario) (i : Nat) : Scenario :=
  let sc := { basis.special_copy with
    id := toString i, name := "pareto_improver", doc := "" }
  { sc with params := sc.params.set "k_PTO_alpha_" (Val.num i) }

namespace CaseStudy

/-- One iteration of the `for i in [0, 1]` loop of
`CaseStudy.improve_pareto_norm_factors` (`src/draf/core/case_study.py`,
lines 402-409): register the probe scenario under id `str(i)`, set its
`k_PTO_alpha_` parameter, solve it via the external collaborator `optimizeF`
(a failed solve leaves `res` absent and raising on the read), append
`C_TOT_ * adjust_factor` and `CE_TOT_` to the accumulators, and delete the
probe from the registry. -/
def paretoProbeStep (optimizeF : Scenario → Option Store) (adjust_factor : ℚ)
    (basis_scen_id : String) (acc : CaseStudy × List ℚ × List ℚ) (i : Nat) :
    Except DrafError (CaseStudy × List ℚ × List ℚ) :=
  match acc.1.add_scen (some (toString i)) "pareto_improver" ""
      (some basis_scen_id) false with
  | .error e => .error e
  | .ok (cs, sc0) =>
    let sc := { sc0 with params := sc0.params.set "k_PTO_alpha_" (Val.num i) }
    let cs2 := { cs with scens := cs.scens.setAttr (toString i) sc }
    match optimizeF sc with
    | none => .error .attributeError
    | some r =>
      match getNumEnt r "C_TOT_" with
      | .error e => .error e
      | .ok c =>
        match getNumEnt r "CE_TOT_" with
        | .error e => .error e
        | .ok e =>
          match cs2.scens.delAttr (toString i) with
          | none => .error .attributeError
          | some reg =>
            .ok ({ cs2 with scens := reg },
              acc.2.1 ++ [c * adjust_factor], acc.2.2 ++ [e])

/-- `CaseStudy.improve_pareto_norm_factors` (`src/draf/core/case_study.py`,
lines 392-417): solve the two probe scenarios at `k_PTO_alpha_ = 0` and `1`,
then write `k_PTO_C_ = 1e3 / mean(nC)` and `k_PTO_CE_ = 1e3 / mean(nCE)` into
the parameters of every scenario in the registry.  The external
model-build-and-solve collaborator is the parameter `optimizeF`, which returns
the populated result store (or `none` for a failed solve). -/
def improve_pareto_norm_factors (cs : CaseStudy)
    (optimizeF : Scenario → Option Store) (adjust_factor : ℚ)
    (basis_scen_id : String) : Except DrafError CaseStudy :=
  match [0, 1].foldlM (paretoProbeStep optimizeF adjust_factor basis_scen_id)
      (cs, ([] : List ℚ), ([] : List ℚ)) with
  | .error e => .error e
  | .ok (cs, nC, nCE) =>
    let kC := 1000 / listMean nC
    let kCE := 1000 / listMean nCE
    .ok { cs with scens := cs.scens.map (fun p =>
      (p.1, { p.2 with params :=
        (p.2.params.set "k_PTO_C_" (.num kC)).set "k_PTO_CE_" (.num kCE) })) }

end CaseStudy

/-- The fallback registry id `f"sc{j}"` used by the sweep generator. -/
@[reducible] def scId (j : Nat) : String := "sc" ++ toString j

/-- The registry ids assigned to the scenarios of one sweep, in creation
order: `sc<start>`, `sc<start+1>`, ..., `count` many. -/
def sweepIds (start count : Nat) : List String :=
  (List.range' start count).map scId

/-- The numeric value of a decimal digit character. -/
def digitVal (c : Char) : Nat := c.toNat - '0'.toNat

/-- Decodes a list of decimal digit characters, most significant first. -/
def decodeDigits (l : List Char) : Nat :=
  l.foldl (fun a c => 10 * a + digitVal c) 0

/-! ### Concrete fixtures used by the witnesses and counterexamples -/

/-- A scenario with one registered variable and one parameter. -/
def c2scen : Scenario :=
  { id := "REF", name := "ref", doc := "", params := [("c_GRID_T", Val.num 1)],
    varsMeta := [("P_PV_CAPx_", { lb := Val.num 0, ub := Val.num 100 })],
    res := none, status := none }

/-- A scenario with a parameter `"c_GRID_RTP_T"` that a string-valued sweep
entry can reference. -/
def c8scen : Scenario :=
  { id := "REF", name := "ref", doc := "", params := [("c_GRID_RTP_T", Val.num 42)],
    varsMeta := [], res := none, status := none }

/-- A distinguishable scenario stored under id `"A"` for the duplicate-id
counterexample. -/
def c3orig : Scenario :=
  { id := "A", name := "original", doc := "", params := [("x", Val.num 1)],
    varsMeta := [], res := none, status := none }

/-- A registry that already contains the id `"A"`. -/
def csC3 : CaseStudy :=
  { scens := [("A", c3orig)], obj_vars := ["C_TOT_", "CE_TOT_"] }

/-- A scenario whose last solve was OPTIMAL (results populated). -/
def c5a : Scenario :=
  Scenario.optimize (freshScenario "REF" "" "") .OPTIMAL [("C_TOT_", Val.num 1)]

/-- A scenario whose last solve was INFEASIBLE (no results). -/
def c5b : Scenario :=
  Scenario.optimize (freshScenario "sc1" "" "") .INFEASIBLE []

/-- A case study where each scenario's state is the outcome of its last solve. -/
def csC5 : CaseStudy :=
  { scens := [("REF", c5a), ("sc1", c5b)], obj_vars := ["C_TOT_", "CE_TOT_"] }

/-- A registry holding `"REF"` (not first) and another scenario. -/
def csC10a : CaseStudy :=
  { scens := [("other", c3orig), ("REF", c8scen)], obj_vars := ["C_TOT_", "CE_TOT_"] }

/-- A non-empty registry without a `"REF"` id. -/
def csC10b : CaseStudy :=
  { scens := [("first", c3orig), ("second", c8scen)], obj_vars := ["C_TOT_", "CE_TOT_"] }

/-- A solved scenario with both objective values populated. -/
def c9solved : Scenario :=
  { id := "REF", name := "", doc := "",
    params := [], varsMeta := [],
    res := some [("C_TOT_", Val.num 3), ("CE_TOT_", Val.num 4)],
    status := some .OPTIMAL }

/-- An unsolved scenario (no `res`). -/
def c9unsolved : Scenario :=
  { id := "sc1", name := "", doc := "", params := [], varsMeta := [],
    res := none, status := some .INFEASIBLE }

/-- A registry mixing a solved and an unsolved scenario. -/
def csC9 : CaseStudy :=
  { scens := [("REF", c9solved), ("sc1", c9unsolved)],
    obj_vars := ["C_TOT_", "CE_TOT_"] }

/-- A registry in which every scenario is solved. -/
def csC9ok : CaseStudy :=
  { scens := [("REF", c9solved)], obj_vars := ["C_TOT_", "CE_TOT_"] }

/-- A reference scenario for the Pareto-normalization fixtures. -/
def c6ref : Scenario :=
  { id := "REF", name := "ref", doc := "", params := [], varsMeta := [],
    res := none, status := none }

/-- A concrete external build-and-solve collaborator: total cost 100 and
emissions 40 at weighting 0; total cost 300 and emissions 60 otherwise. -/
def c6optF : Scenario → Option Store := fun sc =>
  if Store.get? sc.params "k_PTO_alpha_" = some (Val.num 0) then
    some [("C_TOT_", Val.num 100), ("CE_TOT_", Val.num 40)]
  else
    some [("C_TOT_", Val.num 300), ("CE_TOT_", Val.num 60)]

/-- A registry holding only `"REF"` (no `"0"`/`"1"` ids). -/
def csC6 : CaseStudy :=
  { scens := [("REF", c6ref)], obj_vars := ["C_TOT_", "CE_TOT_"] }

/-- A registry that already holds a scenario under the probe id `"0"`. -/
def csC7 : CaseStudy :=
  { scens := [("REF", c6ref), ("0", c3orig)], obj_vars := ["C_TOT_", "CE_TOT_"] }

/-- A registry whose only id is `"sc1"`, colliding with the first fallback
sweep id. -/
def csC1 : CaseStudy :=
  { scens := [("sc1", c3orig)], obj_vars := ["C_TOT_", "CE_TOT_"] }

/-- A registry with only the `"REF"` scenario, ready for a sweep. -/
def csC1w : CaseStudy :=
  { scens := [("REF", c6ref)], obj_vars := ["C_TOT_", "CE_TOT_"] }

/-- The sweep axes of the C1 witness: two values times one value. -/
def c1axes : List SweepAxis :=
  [("x", "x", [Val.num 0, Val.num 10]), ("y", "y", [Val.num 5])]

/-- The case study produced by sweeping `csC1w` over `c1axes`. -/
def c1wres : CaseStudy :=
  ((csC1w.add_scens (some c1axes) 0 false "REF").toOption).getD csC1w

end Draf

namespace Draf

/-! ## Supporting lemmas: decimal numerals are injective -/

lemma toDigitsCore_append (f : Nat) : ∀ (n : Nat) (ds : List Char),
    Nat.toDigitsCore 10 f n ds = Nat.toDigitsCore 10 f n [] ++ ds := by
  induction f with
  | zero => intro n ds; simp [Nat.toDigitsCore]
  | succ f ih =>
    intro n ds
    simp only [Nat.toDigitsCore]
    by_cases h : n / 10 = 0
    · simp [h]
    · simp only [if_neg h]
      rw [ih (n / 10) (Nat.digitChar (n % 10) :: ds),
        ih (n / 10) [Nat.digitChar (n % 10)]]
      simp

lemma toDigitsCore_fuel (f : Nat) : ∀ (g n : Nat), n < f → n < g →
    ∀ (ds : List Char),
    Nat.toDigitsCore 10 f n ds = Nat.toDigitsCore 10 g n ds := by
  induction f with
  | zero => intro g n hn; exact absurd hn (Nat.not_lt_zero n)
  | succ f ih =>
    intro g n hnf hng ds
    cases g with
    | zero => exact absurd hng (Nat.not_lt_zero n)
    | succ g =>
      simp only [Nat.toDigitsCore]
      by_cases h : n / 10 = 0
      · simp [h]
      · simp only [if_neg h]
        have hpos : 0 < n := by
          rcases Nat.eq_zero_or_pos n with h0 | h0
          · exact absurd (by simp [h0]) h
          · exact h0
        have hdiv : n / 10 < n := Nat.div_lt_self hpos (by norm_num)
        exact ih g (n / 10) (by omega) (by omega) _

lemma toDigits_eq (n : Nat) :
    Nat.toDigits 10 n =
      if n < 10 then [Nat.digitChar n]
      else Nat.toDigits 10 (n / 10) ++ [Nat.digitChar (n % 10)] := by
  rw [Nat.toDigits]
  simp only [Nat.toDigitsCore]
  by_cases h : n / 10 = 0
  · have h10 : n < 10 := by omega
    simp [h, h10, Nat.mod_eq_of_lt h10]
  · have h10 : ¬ n < 10 := by omega
    have hdiv : n / 10 < n := Nat.div_lt_self (by omega) (by norm_num)
    rw [if_neg h10, if_neg h, toDigitsCore_fuel n (n / 10 + 1) (n / 10)
      hdiv (Nat.lt_succ_self _), toDigitsCore_append, Nat.toDigits]

lemma digitVal_digitChar : ∀ m, m < 10 → digitVal (Nat.digitChar m) = m := by
  decide

lemma decodeDigits_concat (xs : List Char) (c : Char) :
    decodeDigits (xs ++ [c]) = 10 * decodeDigits xs + digitVal c := by
  simp [decodeDigits, List.foldl_append]

lemma decodeDigits_toDigits (n : Nat) :
    decodeDigits (Nat.toDigits 10 n) = n := by
  induction n using Nat.strong_induction_on with
  | _ n ih =>
    rw [toDigits_eq]
    by_cases h : n < 10
    · simp [h, decodeDigits, digitVal_digitChar n h]
    · rw [if_neg h, decodeDigits_concat, ih (n / 10) (by omega),
        digitVal_digitChar _ (by omega)]
      omega

lemma natRepr_inj {m n : Nat} (h : Nat.repr m = Nat.repr n) : m = n := by
  have hd : Nat.toDigits 10 m = Nat.toDigits 10 n := by
    have h2 := congrArg String.data h
    simpa [Nat.repr, List.asString] using h2
  have h3 := congrArg decodeDigits hd
  rwa [decodeDigits_toDigits, decodeDigits_toDigits] at h3

lemma scId_inj {i j : Nat} (h : scId i = scId j) : i = j := by
  have hi : scId i = "sc" ++ Nat.repr i := rfl
  have hj : scId j = "sc" ++ Nat.repr j := rfl
  rw [hi, hj] at h
  have hd := congrArg String.data h
  simp only [String.data_append] at hd
  exact natRepr_inj (String.ext (List.append_cancel_left hd))

lemma sweepIds_nodup (start count : Nat) : (sweepIds start count).Nodup :=
  (List.nodup_range' ..).map (fun _ _ h => scId_inj h)

/-! ## Supporting lemmas: stores and the registry -/

namespace Store

lemma get?_set_self (st : Store) (k : String) (v : Val) :
    (st.set k v).get? k = some v := by
  induction st with
  | nil => simp [Store.set, Store.get?]
  | cons q st ih =>
    by_cases hq : q.1 = k
    · simp [Store.set, Store.get?, hq]
    · simp [Store.set, Store.get?, hq, ih]

lemma get?_set_ne (st : Store) (k k' : String) (v : Val) (h : k' ≠ k) :
    (st.set k v).get? k' = st.get? k' := by
  induction st with
  | nil => simp [Store.set, Store.get?, Ne.symm h]
  | cons q st ih =>
    by_cases hq : q.1 = k
    · simp [Store.set, Store.get?, hq, Ne.symm h, hq ▸ Ne.symm h]
    · by_cases hq' : q.1 = k'
      · simp [Store.set, Store.get?, hq, hq', h]
      · simp [Store.set, Store.get?, hq, hq', ih]

end Store

namespace Registry

lemma keys_append (r s : Registry) :
    Registry.keys (r ++ s) = Registry.keys r ++ Registry.keys s := by
  simp [Registry.keys]

lemma setAttr_of_not_mem (r : Registry) (k : String) (sc : Scenario)
    (h : k ∉ Registry.keys r) : r.setAttr k sc = r ++ [(k, sc)] := by
  induction r with
  | nil => simp [Registry.setAttr]
  | cons q r ih =>
    simp only [Registry.keys, List.map_cons, List.mem_cons] at h
    push_neg at h
    simp [Registry.setAttr, Ne.symm h.1, ih (by simpa [Registry.keys] using h.2)]

lemma keys_setAttr_of_mem (k : String) (sc : Scenario) :
    ∀ (r : Registry), k ∈ Registry.keys r →
      Registry.keys (r.setAttr k sc) = Registry.keys r := by
  intro r
  induction r with
  | nil => intro h; simp [Registry.keys] at h
  | cons q r ih =>
    intro h
    by_cases hq : q.1 = k
    · simp [Registry.setAttr, hq, Registry.keys]
    · have hk : k ∈ Registry.keys r := by
        rcases (by simpa [Registry.keys] using h : k = q.1 ∨ k ∈ Registry.keys r) with
          h1 | h1
        · exact absurd h1.symm hq
        · exact h1
      simp only [Registry.setAttr, if_neg hq]
      simpa [Registry.keys] using ih hk

lemma setAttr_append_self (r : Registry) (k : String) (v w : Scenario)
    (h : k ∉ Registry.keys r) : (r ++ [(k, v)]).setAttr k w = r ++ [(k, w)] := by
  induction r with
  | nil => simp [Registry.setAttr]
  | cons q r ih =>
    simp only [Registry.keys, List.map_cons, List.mem_cons] at h
    push_neg at h
    simp [Registry.setAttr, Ne.symm h.1,
      ih (by simpa [Registry.keys] using h.2)]

lemma delAttr_append_self (r : Registry) (k : String) (v : Scenario)
    (h : k ∉ Registry.keys r) : (r ++ [(k, v)]).delAttr k = some r := by
  induction r with
  | nil => simp [Registry.delAttr]
  | cons q r ih =>
    simp only [Registry.keys, List.map_cons, List.mem_cons] at h
    push_neg at h
    simp [Registry.delAttr, Ne.symm h.1,
      ih (by simpa [Registry.keys] using h.2)]

lemma getAttr_eq_none (r : Registry) (k : String) :
    r.getAttr k = none ↔ k ∉ Registry.keys r := by
  induction r with
  | nil => simp [Registry.getAttr, Registry.keys]
  | cons q r ih =>
    by_cases hq : q.1 = k
    · simp [Registry.getAttr, hq, Registry.keys]
    · simp [Registry.getAttr, hq, Registry.keys, Ne.symm hq] at ih ⊢
      exact ih

lemma keys_map_snd (r : Registry) (f : String × Scenario → Scenario) :
    Registry.keys (r.map (fun p => (p.1, f p))) = Registry.keys r := by
  simp [Registry.keys, List.map_map]

lemma getAttr_setAttr_self (k : String) (sc : Scenario) :
    ∀ (r : Registry), (r.setAttr k sc).getAttr k = some sc := by
  intro r
  induction r with
  | nil => simp [Registry.setAttr, Registry.getAttr]
  | cons q r ih =>
    by_cases hq : q.1 = k
    · simp [Registry.setAttr, Registry.getAttr, hq]
    · simp [Registry.setAttr, Registry.getAttr, hq, ih]

end Registry

lemma varMeta?_isSome_iff_any (sc : Scenario) (n : String) :
    (sc.varMeta? n).isSome ↔ sc.varsMeta.any (fun p => p.1 = n) = true := by
  simp [Scenario.varMeta?, List.find?_isSome, List.any_eq_true]

lemma varMeta?_eq_none_iff_any (sc : Scenario) (n : String) :
    sc.varMeta? n = none ↔ sc.varsMeta.any (fun p => p.1 = n) = false := by
  simp [Scenario.varMeta?, List.find?_eq_none, List.any_eq_false]

lemma find?_fix_update (ent : String) (v : Val) :
    ∀ (l : List (String × VarMeta)), l.any (fun p => p.1 = ent) = true →
      (l.map (fun p =>
        if p.1 = ent then (p.1, ({ lb := v, ub := v } : VarMeta)) else p)).find?
          (fun p => p.1 = ent) = some (ent, { lb := v, ub := v }) := by
  intro l
  induction l with
  | nil => intro h; simp at h
  | cons q l ih =>
    intro h
    by_cases hq : q.1 = ent
    · simp [hq, List.find?]
    · have h2 : l.any (fun p => p.1 = ent) = true := by
        rcases List.any_eq_true.mp h with ⟨p, hp, hpk⟩
        rcases List.mem_cons.mp hp with rfl | hp2
        · exact absurd (of_decide_eq_true hpk) hq
        · exact List.any_eq_true.mpr ⟨p, hp2, hpk⟩
      simp only [List.map_cons, List.find?, if_neg hq]
      simpa [hq] using ih h2

/-! ## Supporting lemmas: the Except monad -/

lemma except_bind_ok {ε α β : Type} (x : α) (k : α → Except ε β) :
    (Except.ok x >>= k) = k x := rfl

lemma except_bind_err {ε α β : Type} (e : ε) (k : α → Except ε β) :
    ((Except.error e : Except ε α) >>= k) = Except.error e := rfl

lemma except_pure {ε α : Type} (x : α) :
    (pure x : Except ε α) = Except.ok x := rfl

/-! ## Supporting lemmas: add_scen and the pareto-normalization probes -/

lemma add_scen_derive (cs : CaseStudy) (idv name doc basis : String) (b : Scenario)
    (hb : cs.scens.getAttr basis = some b) :
    cs.add_scen (some idv) name doc (some basis) false =
      .ok ({ cs with
               scens := cs.scens.setAttr idv
                 { b.special_copy with id := idv, name := name, doc := doc } },
           { b.special_copy with id := idv, name := name, doc := doc }) := by
  unfold CaseStudy.add_scen
  simp [hb]

lemma add_scen_derive_missing (cs : CaseStudy) (idv name doc basis : String)
    (hb : cs.scens.getAttr basis = none) :
    cs.add_scen (some idv) name doc (some basis) false =
      .error .attributeError := by
  unfold CaseStudy.add_scen
  simp [hb]

lemma paretoProbeStep_ok (cs : CaseStudy) (optimizeF : Scenario → Option Store)
    (af : ℚ) (basis : String) (b : Scenario) (i : Nat) (r : Store) (c e : ℚ)
    (nC nCE : List ℚ)
    (hfresh : toString i ∉ Registry.keys cs.scens)
    (hb : cs.scens.getAttr basis = some b)
    (hopt : optimizeF (paretoProbe b i) = some r)
    (hc : Store.get? r "C_TOT_" = some (.num c))
    (he : Store.get? r "CE_TOT_" = some (.num e)) :
    CaseStudy.paretoProbeStep optimizeF af basis (cs, nC, nCE) i =
      .ok (cs, nC ++ [c * af], nCE ++ [e]) := by
  have hset : ∀ sc, cs.scens.setAttr (toString i) sc =
      cs.scens ++ [(toString i, sc)] :=
    fun sc => Registry.setAttr_of_not_mem cs.scens (toString i) sc hfresh
  have hset2 : ∀ v w, (cs.scens ++ [(toString i, v)]).setAttr (toString i) w =
      cs.scens ++ [(toString i, w)] :=
    fun v w => Registry.setAttr_append_self cs.scens (toString i) v w hfresh
  have hdel : ∀ v, (cs.scens ++ [(toString i, v)]).delAttr (toString i) =
      some cs.scens :=
    fun v => Registry.delAttr_append_self cs.scens (toString i) v hfresh
  simp only [CaseStudy.paretoProbeStep,
    add_scen_derive cs (toString i) "pareto_improver" "" basis b hb,
    hset, hset2, hdel, hopt, getNumEnt, hc, he]

lemma paretoProbeStep_ok_scens (optimizeF : Scenario → Option Store)
    (af : ℚ) (basis : String) (acc : CaseStudy × List ℚ × List ℚ) (i : Nat)
    (out : CaseStudy × List ℚ × List ℚ)
    (hfresh : toString i ∉ Registry.keys acc.1.scens)
    (hok : CaseStudy.paretoProbeStep optimizeF af basis acc i = .ok out) :
    out.1.scens = acc.1.scens := by
  obtain ⟨cs, nC, nCE⟩ := acc
  simp only at hfresh ⊢
  have hset : ∀ sc, cs.scens.setAttr (toString i) sc =
      cs.scens ++ [(toString i, sc)] :=
    fun sc => Registry.setAttr_of_not_mem cs.scens (toString i) sc hfresh
  have hset2 : ∀ v w, (cs.scens ++ [(toString i, v)]).setAttr (toString i) w =
      cs.scens ++ [(toString i, w)] :=
    fun v w => Registry.setAttr_append_self cs.scens (toString i) v w hfresh
  have hdel : ∀ v, (cs.scens ++ [(toString i, v)]).delAttr (toString i) =
      some cs.scens :=
    fun v => Registry.delAttr_append_self cs.scens (toString i) v hfresh
  cases hb : cs.scens.getAttr basis with
  | none =>
    rw [show CaseStudy.paretoProbeStep optimizeF af basis (cs, nC, nCE) i =
        .error .attributeError by
      simp only [CaseStudy.paretoProbeStep,
        add_scen_derive_missing cs (toString i) "pareto_improver" "" basis hb]] at hok
    cases hok
  | some b =>
    simp only [CaseStudy.paretoProbeStep,
      add_scen_derive cs (toString i) "pareto_improver" "" basis b hb,
      hset, hset2, hdel] at hok
    split at hok
    · cases hok
    · split at hok
      · cases hok
      · split at hok
        · cases hok
        · injection hok with h2
          subst h2
          rfl

lemma string_of_zero : toString (0 : Nat) = "0" := by decide

lemma string_of_one : toString (1 : Nat) = "1" := by decide

lemma paretoFold01_scens (optimizeF : Scenario → Option Store) (af : ℚ)
    (basis : String) (cs : CaseStudy) (out : CaseStudy × List ℚ × List ℚ)
    (h0 : "0" ∉ Registry.keys cs.scens) (h1 : "1" ∉ Registry.keys cs.scens)
    (hok : List.foldlM (CaseStudy.paretoProbeStep optimizeF af basis)
      ((cs, ([] : List ℚ), ([] : List ℚ))) [0, 1] = .ok out) :
    out.1.scens = cs.scens := by
  simp only [List.foldlM] at hok
  cases hs0 : CaseStudy.paretoProbeStep optimizeF af basis (cs, [], []) 0 with
  | error e =>
    rw [hs0] at hok
    simp only [except_bind_err] at hok
    cases hok
  | ok acc1 =>
    rw [hs0] at hok
    simp only [except_bind_ok] at hok
    have hsc1 : acc1.1.scens = cs.scens :=
      paretoProbeStep_ok_scens optimizeF af basis (cs, [], []) 0 acc1
        (by rw [string_of_zero]; exact h0) hs0
    cases hs1 : CaseStudy.paretoProbeStep optimizeF af basis acc1 1 with
    | error e =>
      rw [hs1] at hok
      simp only [except_bind_err] at hok
      cases hok
    | ok acc2 =>
      rw [hs1] at hok
      simp only [except_bind_ok, except_pure] at hok
      have hsc2 : acc2.1.scens = acc1.1.scens :=
        paretoProbeStep_ok_scens optimizeF af basis acc1 1 acc2
          (by rw [string_of_one, hsc1]; exact h1) hs1
      injection hok with h2
      subst h2
      rw [hsc2, hsc1]

/-! ## Supporting lemmas: the pareto table fold -/

lemma paretoVals_ok (r : Store) : ∀ (ov : List String),
    (∀ v ∈ ov, (r.get? v).isSome) → ∃ vals, paretoVals r ov = .ok vals := by
  intro ov
  induction ov with
  | nil => intro hv; exact ⟨[], rfl⟩
  | cons v vs ih =>
    intro hv
    rcases Option.isSome_iff_exists.mp (hv v (List.mem_cons_self v vs)) with ⟨x, hx⟩
    rcases ih (fun w hw => hv w (List.mem_cons_of_mem v hw)) with ⟨xs, hxs⟩
    exact ⟨x :: xs, by simp [paretoVals, hx, hxs]⟩

lemma pareto_fold_ok (ov : List String) : ∀ (l : Registry)
    (acc : List (String × List Val)),
    (∀ p ∈ l, ∃ r, p.2.res = some r ∧ ∀ v ∈ ov, (Store.get? r v).isSome) →
    ∃ rows, l.foldlM (paretoStep ov) acc = .ok (acc ++ rows) ∧
      rows.map (fun q => q.1) = Registry.keys l := by
  intro l
  induction l with
  | nil => intro acc _; exact ⟨[], by simp [List.foldlM, except_pure, Registry.keys]⟩
  | cons p l ih =>
    intro acc hl
    rcases hl p (List.mem_cons_self p l) with ⟨r, hres, hv⟩
    rcases paretoVals_ok r ov hv with ⟨vals, hvals⟩
    rcases ih (acc ++ [(p.1, vals)])
        (fun q hq => hl q (List.mem_cons_of_mem p hq)) with ⟨rows, hfold, hkeys⟩
    refine ⟨(p.1, vals) :: rows, ?_, by simp [Registry.keys, hkeys]⟩
    simp only [List.foldlM, paretoStep, hres, hvals, except_bind_ok]
    rw [hfold]
    simp

lemma pareto_fold_err (ov : List String) : ∀ (l : Registry)
    (acc : List (String × List Val)),
    (∃ p ∈ l, p.2.res = none) →
    ∃ e, l.foldlM (paretoStep ov) acc = .error e := by
  intro l
  induction l with
  | nil => intro acc h; simp at h
  | cons p l ih =>
    intro acc h
    cases hres : p.2.res with
    | none =>
      exact ⟨.attributeError, by simp [List.foldlM, paretoStep, hres, except_bind_err]⟩
    | some r =>
      have h2 : ∃ q ∈ l, q.2.res = none := by
        rcases h with ⟨q, hq, hqres⟩
        rcases List.mem_cons.mp hq with rfl | hq2
        · rw [hres] at hqres; cases hqres
        · exact ⟨q, hq2, hqres⟩
      cases hvals : paretoVals r ov with
      | error e =>
        exact ⟨e, by simp [List.foldlM, paretoStep, hres, hvals, except_bind_err]⟩
      | ok vals =>
        rcases ih (acc ++ [(p.1, vals)]) h2 with ⟨e, hfold⟩
        exact ⟨e, by simp [List.foldlM, paretoStep, hres, hvals, except_bind_ok, hfold]⟩

end Draf

namespace Draf

/-! ## Supporting lemmas: the sweep fold -/

lemma mem_range'_bounds {m s n : Nat} (h : m ∈ List.range' s n) :
    s ≤ m ∧ m < s + n := by
  rcases List.mem_range'.mp h with ⟨i, hi, rfl⟩
  omega

lemma productCombos_length : ∀ (ls : List (List Val)),
    (productCombos ls).length = (ls.map List.length).prod := by
  intro ls
  induction ls with
  | nil => simp [productCombos]
  | cons vs rest ih =>
    simp [productCombos, List.length_flatMap, Function.comp_def, ih,
      List.map_const', List.sum_replicate, smul_eq_mul, Nat.mul_comm]

lemma sweepStep_ok_keys (based_on : String) (longs shorts : List String)
    (cs : CaseStudy) (combo : List Val) (out : CaseStudy)
    (hfresh : scId cs.scens.length ∉ Registry.keys cs.scens)
    (hok : CaseStudy.sweepStep based_on longs shorts cs combo = .ok out) :
    Registry.keys out.scens =
      Registry.keys cs.scens ++ [scId cs.scens.length] := by
  have hset : ∀ sc, cs.scens.setAttr (scId cs.scens.length) sc =
      cs.scens ++ [(scId cs.scens.length, sc)] :=
    fun sc => Registry.setAttr_of_not_mem cs.scens (scId cs.scens.length) sc hfresh
  have hset2 : ∀ v w,
      (cs.scens ++ [(scId cs.scens.length, v)]).setAttr (scId cs.scens.length) w =
        cs.scens ++ [(scId cs.scens.length, w)] :=
    fun v w =>
      Registry.setAttr_append_self cs.scens (scId cs.scens.length) v w hfresh
  cases hb : cs.scens.getAttr based_on with
  | none =>
    rw [show CaseStudy.sweepStep based_on longs shorts cs combo =
        .error .attributeError by
      simp only [CaseStudy.sweepStep, add_scen_derive_missing cs
        (scId cs.scens.length) (comboName shorts combo) (comboDoc longs combo)
        based_on hb]] at hok
    cases hok
  | some b =>
    simp only [CaseStudy.sweepStep,
      add_scen_derive cs (scId cs.scens.length) (comboName shorts combo)
        (comboDoc longs combo) based_on b hb,
      hset, hset2] at hok
    split at hok
    · cases hok
    · injection hok with h2
      subst h2
      simp [Registry.keys_append, Registry.keys]

lemma sweep_fold_keys (based_on : String) (longs shorts : List String) :
    ∀ (combos : List (List Val)) (cs out : CaseStudy),
      (∀ j ∈ List.range' cs.scens.length combos.length,
        scId j ∉ Registry.keys cs.scens) →
      List.foldlM (CaseStudy.sweepStep based_on longs shorts) cs combos =
        .ok out →
      Registry.keys out.scens =
        Registry.keys cs.scens ++ sweepIds cs.scens.length combos.length := by
  intro combos
  induction combos with
  | nil =>
    intro cs out hfr hok
    simp only [List.foldlM, except_pure] at hok
    injection hok with h2
    subst h2
    simp [sweepIds]
  | cons c combos ih =>
    intro cs out hfr hok
    simp only [List.foldlM] at hok
    cases hs : CaseStudy.sweepStep based_on longs shorts cs c with
    | error e =>
      rw [hs] at hok
      simp only [except_bind_err] at hok
      cases hok
    | ok cs1 =>
      rw [hs] at hok
      simp only [except_bind_ok] at hok
      have hfresh0 : scId cs.scens.length ∉ Registry.keys cs.scens := by
        apply hfr
        rw [List.length_cons, List.range'_succ]
        exact List.mem_cons_self _ _
      have hk1 := sweepStep_ok_keys based_on longs shorts cs c cs1 hfresh0 hs
      have hlen : cs1.scens.length = cs.scens.length + 1 := by
        have h3 := congrArg List.length hk1
        simpa [Registry.keys] using h3
      have hfr1 : ∀ j ∈ List.range' cs1.scens.length combos.length,
          scId j ∉ Registry.keys cs1.scens := by
        intro j hj
        rw [hk1]
        rw [hlen] at hj
        simp only [List.mem_append, List.mem_singleton]
        push_neg
        constructor
        · apply hfr
          rw [List.length_cons, List.range'_succ]
          exact List.mem_cons_of_mem _ hj
        · intro heq
          have hje := scId_inj heq
          have hjb := (mem_range'_bounds hj).1
          omega
      have hrest := ih cs1 out hfr1 hok
      rw [hrest, hk1, hlen, List.append_assoc]
      simp [sweepIds, List.range'_succ]

/-! ## The claims -/

/-- Claim C1 (counterexample): a sweep invocation with one axis of two values
against a registry whose only id is `"sc1"` creates and keeps only ONE registry
entry, not `2` — the fallback id `f"sc{len(self.scens_dic)}"` collides with the
pre-existing `"sc1"`, `setattr` silently overwrites it, the registry size never
grows, and the second combination overwrites the first. -/
theorem C1_collision_counterexample :
    (csC1.add_scens (some [("x", "x", [Val.num 0, Val.num 1])]) 0 false
        "sc1").map (fun c => (Registry.keys c.scens, c.scens.length)) =
      .ok (["sc1"], 1) ∧
    (([("x", "x", [Val.num 0, Val.num 1])] : List SweepAxis).map
      (fun a => a.2.2.length)).prod = 2 ∧
    (1 : Nat) ≠ 1 + 2 := by
  decide

/-- Claim C1 (amended): for a successful sweep invocation with `k >= 1` axes of
cardinalities `n1..nk`, provided none of the fallback ids
`sc<N>, ..., sc<N + n1*...*nk - 1>` (`N` the registry size before the call) is
already a registry id, exactly `n1*...*nk` new scenarios are created and
registered — the registry ids afterwards are the old ids followed by those
fallback ids in creation order, the registry grows by exactly the product, and
the new ids are pairwise distinct. -/
theorem C1_sweep_count (cs out : CaseStudy) (axes : List SweepAxis)
    (based_on : String) (hax : axes ≠ [])
    (hfr : ∀ j ∈ List.range' cs.scens.length
        ((axes.map (fun a => a.2.2.length)).prod),
      scId j ∉ Registry.keys cs.scens)
    (hok : cs.add_scens (some axes) 0 false based_on = .ok out) :
    Registry.keys out.scens =
      Registry.keys cs.scens ++
        sweepIds cs.scens.length ((axes.map (fun a => a.2.2.length)).prod) ∧
    out.scens.length =
      cs.scens.length + (axes.map (fun a => a.2.2.length)).prod ∧
    (sweepIds cs.scens.length
      ((axes.map (fun a => a.2.2.length)).prod)).Nodup := by
  have hprodlen : (productCombos (axes.map (fun a => a.2.2))).length =
      (axes.map (fun a => a.2.2.length)).prod := by
    rw [productCombos_length, List.map_map]
    rfl
  cases axes with
  | nil => exact absurd rfl hax
  | cons a rest =>
    simp only [CaseStudy.add_scens, gt_iff_lt, lt_self_iff_false, if_false,
      List.isEmpty_cons, Bool.false_eq_true] at hok
    cases hf : List.foldlM
        (CaseStudy.sweepStep based_on ((a :: rest).map (fun x => x.1))
          ((a :: rest).map (fun x => x.2.1)))
        cs (productCombos ((a :: rest).map (fun x => x.2.2))) with
    | error e => rw [hf] at hok; cases hok
    | ok cs2 =>
      rw [hf] at hok
      injection hok with h2
      subst h2
      have hkeys := sweep_fold_keys based_on
        ((a :: rest).map (fun x => x.1)) ((a :: rest).map (fun x => x.2.1))
        (productCombos ((a :: rest).map (fun x => x.2.2))) cs cs2
        (by rw [hprodlen]; exact hfr) hf
      rw [hprodlen] at hkeys
      refine ⟨hkeys, ?_, sweepIds_nodup _ _⟩
      have hlen := congrArg List.length hkeys
      simpa [Registry.keys, sweepIds, List.length_range'] using hlen

/-- Witness for the amended C1: sweeping the one-scenario registry `csC1w` over
the axes `c1axes` (cardinalities 2 and 1) appends exactly the two fresh ids
`sc1`, `sc2`. -/
theorem C1_sweep_count_witness :
    Registry.keys c1wres.scens =
      Registry.keys csC1w.scens ++
        sweepIds csC1w.scens.length ((c1axes.map (fun a => a.2.2.length)).prod) ∧
    c1wres.scens.length =
      csC1w.scens.length + (c1axes.map (fun a => a.2.2.length)).prod ∧
    (sweepIds csC1w.scens.length
      ((c1axes.map (fun a => a.2.2.length)).prod)).Nodup :=
  C1_sweep_count csC1w c1wres c1axes "REF" (by decide) (by decide) (by decide)

/-- Claim C2: for every `(entity-name, value)` pair applied to a derived
scenario during a sweep (the routing rule of `add_scens`, lines 302-313 of
`src/draf/core/case_study.py`): if the entity name is registered as a variable
(present in `sc.vars._meta`), afterwards its lower and upper bound both equal
the value; otherwise the name is treated as a parameter and afterwards the
scenario's parameter of that name equals the value. -/
theorem C2_sweep_routing (sc : Scenario) (ent : String) (v : Val) :
    ((sc.varMeta? ent).isSome →
      (sc.routeValue ent v).varMeta? ent = some { lb := v, ub := v }) ∧
    (sc.varMeta? ent = none →
      (sc.routeValue ent v).params.get? ent = some v) := by
  constructor
  · intro h
    have hany := (varMeta?_isSome_iff_any sc ent).mp h
    unfold Scenario.routeValue
    rw [if_pos hany]
    unfold Scenario.varMeta?
    rw [find?_fix_update ent v sc.varsMeta hany]
    rfl
  · intro h
    have hany := (varMeta?_eq_none_iff_any sc ent).mp h
    unfold Scenario.routeValue
    rw [hany]
    simp only [Bool.false_eq_true, if_false]
    unfold Scenario.update_params
    simp [Store.get?_set_self]

/-- Witness for C2: on a concrete scenario with a registered variable
`"P_PV_CAPx_"` and no variable `"c_GRID_T"`, applying `7` to the former fixes
both bounds to `7`, and applying `7` to the latter sets the parameter to `7`. -/
theorem C2_sweep_routing_witness :
    ((c2scen.routeValue "P_PV_CAPx_" (Val.num 7)).varMeta? "P_PV_CAPx_" =
      some { lb := Val.num 7, ub := Val.num 7 }) ∧
    ((c2scen.routeValue "c_GRID_T" (Val.num 7)).params.get? "c_GRID_T" =
      some (Val.num 7)) :=
  ⟨(C2_sweep_routing c2scen "P_PV_CAPx_" (Val.num 7)).1 (by decide),
   (C2_sweep_routing c2scen "c_GRID_T" (Val.num 7)).2 (by decide)⟩

/-- Claim C8: for a sweep entry whose value is the string `s` (lines 302-304 of
`src/draf/core/case_study.py`): if `s` names an existing entity of the derived
scenario, the value actually applied by the routing rule is that entity's
current value, not the literal string; if no entity of that name exists, the
sweep fails with an `UnknownEntity` error (an `AttributeError`). -/
theorem C8_string_value_resolution (sc : Scenario) (s ent : String) :
    (∀ w, sc.get_entity s = some w →
      sc.apply_entity_value ent (.str s) = .ok (sc.routeValue ent w)) ∧
    (sc.get_entity s = none →
      sc.apply_entity_value ent (.str s) = .error .attributeError) := by
  constructor
  · intro w hw
    simp [Scenario.apply_entity_value, hw]
  · intro hn
    simp [Scenario.apply_entity_value, hn]

/-- Witness for C8: on a concrete scenario with parameter `"c_GRID_RTP_T"`
holding `42`, the sweep value `"c_GRID_RTP_T"` is applied as `42` (not as the
string), and the unknown name `"nope"` raises. -/
theorem C8_string_value_resolution_witness :
    (c8scen.apply_entity_value "c_GRID_T" (.str "c_GRID_RTP_T") =
      .ok (c8scen.routeValue "c_GRID_T" (Val.num 42))) ∧
    (c8scen.apply_entity_value "c_GRID_T" (.str "nope") =
      .error .attributeError) :=
  ⟨(C8_string_value_resolution c8scen "c_GRID_RTP_T" "c_GRID_T").1
      (Val.num 42) (by decide),
   (C8_string_value_resolution c8scen "nope" "c_GRID_T").2 (by decide)⟩

/-- Claim C3 (counterexample): adding a scenario under the already-present id
`"A"` does NOT fail with a `DuplicateId` error — `add_scen` registers with a
plain `setattr` (line 239 of `src/draf/core/case_study.py`), which silently
replaces the stored scenario, so the call succeeds and the registry is
changed. -/
theorem C3_duplicate_id_counterexample :
    csC3.add_scen (some "A") "n" "d" none false =
      .ok ({ scens := [("A", freshScenario "A" "n" "d")],
             obj_vars := ["C_TOT_", "CE_TOT_"] }, freshScenario "A" "n" "d") ∧
    ([("A", freshScenario "A" "n" "d")] : Registry) ≠ csC3.scens := by
  decide

/-- Claim C3 (amended): adding a scenario under an id that is already present
raises no error and silently overwrites the stored scenario in place — the set
of registry ids is unchanged and the id now maps to the new scenario. -/
theorem C3_amended_overwrite (cs : CaseStudy) (id name doc : String)
    (h : id ∈ Registry.keys cs.scens) :
    ∃ cs2, cs.add_scen (some id) name doc none false =
        .ok (cs2, freshScenario id name doc) ∧
      Registry.keys cs2.scens = Registry.keys cs.scens ∧
      cs2.scens.getAttr id = some (freshScenario id name doc) := by
  refine ⟨{ cs with scens := cs.scens.setAttr id (freshScenario id name doc) },
    rfl, ?_, ?_⟩
  · exact Registry.keys_setAttr_of_mem id (freshScenario id name doc) cs.scens h
  · exact Registry.getAttr_setAttr_self id (freshScenario id name doc) cs.scens

/-- Witness for the amended C3 at the concrete registry `csC3`. -/
theorem C3_amended_overwrite_witness :
    ∃ cs2, csC3.add_scen (some "A") "n" "d" none false =
        .ok (cs2, freshScenario "A" "n" "d") ∧
      Registry.keys cs2.scens = Registry.keys csC3.scens ∧
      cs2.scens.getAttr "A" = some (freshScenario "A" "n" "d") :=
  C3_amended_overwrite csC3 "A" "n" "d" (by decide)

/-- Claim C4: invoking the sweep generator with zero axes (an explicit empty
axis list and no auto-appended Pareto axis) raises before any scenario is
created.  In the source the failure is the `ValueError` thrown by unpacking
`zip(*[])` into three names (line 287 of `src/draf/core/case_study.py`), which
is what the spec's `SweepConfigError` names; it happens before the registration
loop, so the registry is untouched (the embedding returns the error before any
`sweepStep`). -/
theorem C4_zero_axes_error (cs : CaseStudy) (del_REF : Bool) (based_on : String) :
    cs.add_scens (some []) 0 del_REF based_on = .error DrafError.valueError :=
  rfl

/-- Claim C5: for a registry in which every scenario's state is the outcome of
its last solve (`Scenario.optimize`), the valid-scenarios view is a subset of
all registered scenarios, and a scenario is in it iff its results are populated
iff its last solve status was OPTIMAL or SUBOPTIMAL
(`CaseStudy.valid_scens`, lines 129-132 of `src/draf/core/case_study.py`). -/
theorem C5_valid_scens (cs : CaseStudy)
    (h : ∀ p ∈ cs.scens, ∃ sc0 st r, p.2 = Scenario.optimize sc0 st r) :
    (∀ p ∈ cs.valid_scens, p ∈ cs.scens) ∧
    (∀ p ∈ cs.scens,
      ((p ∈ cs.valid_scens ↔ p.2.res.isSome) ∧
       (p.2.res.isSome ↔
        (p.2.status = some .OPTIMAL ∨ p.2.status = some .SUBOPTIMAL)))) := by
  constructor
  · intro p hp
    exact List.mem_of_mem_filter hp
  · intro p hp
    constructor
    · unfold CaseStudy.valid_scens
      rw [List.mem_filter]
      simp [hp]
    · rcases h p hp with ⟨sc0, st, r, hopt⟩
      rw [hopt]
      unfold Scenario.optimize
      by_cases hst : st = .OPTIMAL ∨ st = .SUBOPTIMAL
      · simp [hst]
      · rw [if_neg hst]
        push_neg at hst
        simp [hst.1, hst.2]

/-- Witness for C5 at a concrete registry: `"REF"` solved OPTIMAL, `"sc1"`
INFEASIBLE. -/
theorem C5_valid_scens_witness :
    (∀ p ∈ csC5.valid_scens, p ∈ csC5.scens) ∧
    (∀ p ∈ csC5.scens,
      ((p ∈ csC5.valid_scens ↔ p.2.res.isSome) ∧
       (p.2.res.isSome ↔
        (p.2.status = some .OPTIMAL ∨ p.2.status = some .SUBOPTIMAL)))) :=
  C5_valid_scens csC5 (by
    intro p hp
    rcases List.mem_cons.mp hp with rfl | hp2
    · exact ⟨freshScenario "REF" "" "", .OPTIMAL, [("C_TOT_", Val.num 1)], rfl⟩
    · rcases List.mem_cons.mp hp2 with rfl | hp3
      · exact ⟨freshScenario "sc1" "" "", .INFEASIBLE, [], rfl⟩
      · cases hp3)

/-- Claim C10: for a non-empty registry, `REF_scen` returns the scenario stored
under id `"REF"` when one exists, and otherwise the first scenario in insertion
order, without raising (`CaseStudy.REF_scen`, lines 157-164 of
`src/draf/core/case_study.py`). -/
theorem C10_REF_scen (cs : CaseStudy) (h : cs.scens ≠ []) :
    cs.REF_scen.isSome ∧
    (∀ sc, cs.scens.getAttr "REF" = some sc → cs.REF_scen = some sc) ∧
    (cs.scens.getAttr "REF" = none →
      cs.REF_scen = (cs.scens.map (fun p => p.2)).head?) := by
  refine ⟨?_, ?_, ?_⟩
  · cases hg : cs.scens.getAttr "REF" with
    | some sc => simp [CaseStudy.REF_scen, hg]
    | none =>
      cases hs : cs.scens with
      | nil => exact absurd hs h
      | cons q r =>
        rw [hs] at hg
        simp [CaseStudy.REF_scen, hs, hg]
  · intro sc hg
    simp [CaseStudy.REF_scen, hg]
  · intro hg
    simp [CaseStudy.REF_scen, hg]

/-- Witness for C10: with `"REF"` present (not first) it is returned; without a
`"REF"` id the first scenario in insertion order is returned. -/
theorem C10_REF_scen_witness :
    (csC10a.REF_scen = some c8scen) ∧ (csC10b.REF_scen = some c3orig) :=
  ⟨(C10_REF_scen csC10a (by decide)).2.1 c8scen (by decide),
   by
    have h := (C10_REF_scen csC10b (by decide)).2.2 (by decide)
    simpa using h⟩

/-- Claim C9 (counterexample): building the Pareto table over a registry that
contains the unsolved scenario `"sc1"` raises an `AttributeError`
(`getattr(sc.res, var)` in `CaseStudy.pareto` iterates ALL of `scens_dic`, not
only the solved scenarios), instead of leaving the unsolved scenario out. -/
theorem C9_pareto_counterexample :
    csC9.pareto = .error .attributeError ∧
    csC9.scens.getAttr "sc1" = some c9unsolved ∧
    c9unsolved.res = none := by
  decide

/-- Claim C9 (amended): the Pareto table is built over ALL registered scenarios
keyed by registry id — when every registered scenario has populated results
holding the configured objective variables, the table has exactly one row per
scenario, keyed by id in registry order; a scenario whose solve did not
populate results is NOT left out: its presence makes the table construction
raise an error instead. -/
theorem C9_amended_pareto (cs : CaseStudy) :
    ((∀ p ∈ cs.scens,
        ∃ r, p.2.res = some r ∧ ∀ v ∈ cs.obj_vars, (Store.get? r v).isSome) →
      ∃ rows, cs.pareto = .ok rows ∧
        rows.map (fun q => q.1) = Registry.keys cs.scens) ∧
    ((∃ p ∈ cs.scens, p.2.res = none) → ∃ e, cs.pareto = .error e) := by
  constructor
  · intro h
    rcases pareto_fold_ok cs.obj_vars cs.scens [] h with ⟨rows, hfold, hkeys⟩
    exact ⟨rows, by simpa [CaseStudy.pareto] using hfold, hkeys⟩
  · intro h
    rcases pareto_fold_err cs.obj_vars cs.scens [] h with ⟨e, hfold⟩
    exact ⟨e, by simpa [CaseStudy.pareto] using hfold⟩

/-- Witness for the amended C9: the all-solved registry `csC9ok` yields a table
keyed exactly by its ids, and the mixed registry `csC9` raises. -/
theorem C9_amended_pareto_witness :
    (∃ rows, csC9ok.pareto = .ok rows ∧
      rows.map (fun q => q.1) = Registry.keys csC9ok.scens) ∧
    (∃ e, csC9.pareto = .error e) :=
  ⟨(C9_amended_pareto csC9ok).1 (by
      intro p hp
      rcases List.mem_cons.mp hp with rfl | hp2
      · exact ⟨[("C_TOT_", Val.num 3), ("CE_TOT_", Val.num 4)], rfl, by decide⟩
      · cases hp2),
   (C9_amended_pareto csC9).2 ⟨("sc1", c9unsolved), by decide, rfl⟩⟩

/-- Claim C6: given probe total costs `c0`, `c1` (read at weighting 0 and 1)
and probe total emissions `e0`, `e1`, `improve_pareto_norm_factors`
(`src/draf/core/case_study.py`, lines 392-417) writes into every scenario the
cost factor `1000 / mean(c0 * af, c1 * af)` and the emission factor
`1000 / mean(e0, e1)`. -/
theorem C6_norm_factor_values (cs : CaseStudy) (optimizeF : Scenario → Option Store)
    (af c0 c1 e0 e1 : ℚ) (basis : String) (b : Scenario) (r0 r1 : Store)
    (h0 : "0" ∉ Registry.keys cs.scens) (h1 : "1" ∉ Registry.keys cs.scens)
    (hb : cs.scens.getAttr basis = some b)
    (hopt0 : optimizeF (paretoProbe b 0) = some r0)
    (hc0 : Store.get? r0 "C_TOT_" = some (.num c0))
    (he0 : Store.get? r0 "CE_TOT_" = some (.num e0))
    (hopt1 : optimizeF (paretoProbe b 1) = some r1)
    (hc1 : Store.get? r1 "C_TOT_" = some (.num c1))
    (he1 : Store.get? r1 "CE_TOT_" = some (.num e1)) :
    ∃ cs2, cs.improve_pareto_norm_factors optimizeF af basis = .ok cs2 ∧
      ∀ p ∈ cs2.scens,
        Store.get? p.2.params "k_PTO_C_" =
          some (.num (1000 / ((c0 * af + c1 * af) / 2))) ∧
        Store.get? p.2.params "k_PTO_CE_" =
          some (.num (1000 / ((e0 + e1) / 2))) := by
  have hs0 := paretoProbeStep_ok cs optimizeF af basis b 0 r0 c0 e0 [] []
    (by rw [string_of_zero]; exact h0) hb hopt0 hc0 he0
  have hs1 := paretoProbeStep_ok cs optimizeF af basis b 1 r1 c1 e1
    ([] ++ [c0 * af]) ([] ++ [e0])
    (by rw [string_of_one]; exact h1) hb hopt1 hc1 he1
  unfold CaseStudy.improve_pareto_norm_factors
  simp only [List.foldlM, hs0, except_bind_ok, hs1, except_pure]
  refine ⟨_, rfl, ?_⟩
  intro p hp
  rcases List.mem_map.mp hp with ⟨q, hq, rfl⟩
  have hmC : listMean ([] ++ [c0 * af] ++ [c1 * af]) = (c0 * af + c1 * af) / 2 := by
    simp [listMean]
  have hmE : listMean ([] ++ [e0] ++ [e1]) = (e0 + e1) / 2 := by
    simp [listMean]
  constructor
  · rw [Store.get?_set_ne _ _ _ _ (by decide), Store.get?_set_self, hmC]
  · rw [Store.get?_set_self, hmE]

/-- Witness for C6: probe costs 100 and 300 and probe emissions 40 and 60 with
adjustment factor 1 give every scenario a cost factor of
`1000 / ((100 + 300) / 2)` — which is exactly `5` — and an emission factor of
`1000 / ((40 + 60) / 2) = 20`. -/
theorem C6_norm_factor_values_witness :
    (∃ cs2, csC6.improve_pareto_norm_factors c6optF 1 "REF" = .ok cs2 ∧
      ∀ p ∈ cs2.scens,
        Store.get? p.2.params "k_PTO_C_" =
          some (.num (1000 / ((100 * 1 + 300 * 1) / 2))) ∧
        Store.get? p.2.params "k_PTO_CE_" =
          some (.num (1000 / ((40 + 60) / 2)))) ∧
    (1000 / ((100 * 1 + 300 * 1) / 2) : ℚ) = 5 :=
  ⟨C6_norm_factor_values csC6 c6optF 1 100 300 40 60 "REF" c6ref
      [("C_TOT_", Val.num 100), ("CE_TOT_", Val.num 40)]
      [("C_TOT_", Val.num 300), ("CE_TOT_", Val.num 60)]
      (by decide) (by decide) (by decide) (by decide) (by decide) (by decide)
      (by decide) (by decide) (by decide),
   by norm_num⟩

/-- Claim C7 (counterexample): a registry that already holds a scenario under
the probe id `"0"` does NOT keep its scenario ids across
`improve_pareto_norm_factors` — the probe overwrites the stored scenario and
`delattr` then removes the id entirely, so `["REF", "0"]` becomes `["REF"]`. -/
theorem C7_probe_id_destroyed_counterexample :
    Registry.keys csC7.scens = ["REF", "0"] ∧
    (csC7.improve_pareto_norm_factors c6optF 1 "REF").map
      (fun c => Registry.keys c.scens) = .ok ["REF"] ∧
    (["REF"] : List String) ≠ ["REF", "0"] := by
  decide

/-- Claim C7 (amended): provided the probe ids `"0"` and `"1"` are not already
registry ids, after `improve_pareto_norm_factors` returns the registry contains
exactly the same scenario ids as before the call, both transient probes are
absent, and both normalization factors have been written as parameters into
every scenario remaining in the registry. -/
theorem C7_probe_cleanup (cs : CaseStudy) (optimizeF : Scenario → Option Store)
    (af c0 c1 e0 e1 : ℚ) (basis : String) (b : Scenario) (r0 r1 : Store)
    (h0 : "0" ∉ Registry.keys cs.scens) (h1 : "1" ∉ Registry.keys cs.scens)
    (hb : cs.scens.getAttr basis = some b)
    (hopt0 : optimizeF (paretoProbe b 0) = some r0)
    (hc0 : Store.get? r0 "C_TOT_" = some (.num c0))
    (he0 : Store.get? r0 "CE_TOT_" = some (.num e0))
    (hopt1 : optimizeF (paretoProbe b 1) = some r1)
    (hc1 : Store.get? r1 "C_TOT_" = some (.num c1))
    (he1 : Store.get? r1 "CE_TOT_" = some (.num e1)) :
    ∃ cs2, cs.improve_pareto_norm_factors optimizeF af basis = .ok cs2 ∧
      Registry.keys cs2.scens = Registry.keys cs.scens ∧
      "0" ∉ Registry.keys cs2.scens ∧ "1" ∉ Registry.keys cs2.scens ∧
      ∃ kC kCE : ℚ, ∀ p ∈ cs2.scens,
        Store.get? p.2.params "k_PTO_C_" = some (.num kC) ∧
        Store.get? p.2.params "k_PTO_CE_" = some (.num kCE) := by
  have hs0 := paretoProbeStep_ok cs optimizeF af basis b 0 r0 c0 e0 [] []
    (by rw [string_of_zero]; exact h0) hb hopt0 hc0 he0
  have hs1 := paretoProbeStep_ok cs optimizeF af basis b 1 r1 c1 e1
    ([] ++ [c0 * af]) ([] ++ [e0])
    (by rw [string_of_one]; exact h1) hb hopt1 hc1 he1
  unfold CaseStudy.improve_pareto_norm_factors
  simp only [List.foldlM, hs0, except_bind_ok, hs1, except_pure]
  refine ⟨_, rfl, ?_⟩
  have hkeys : ∀ (f : String × Scenario → Scenario),
      Registry.keys (cs.scens.map (fun p => (p.1, f p))) =
        Registry.keys cs.scens :=
    fun f => Registry.keys_map_snd cs.scens f
  refine ⟨hkeys _, ?_, ?_, 1000 / listMean ([] ++ [c0 * af] ++ [c1 * af]),
    1000 / listMean ([] ++ [e0] ++ [e1]), ?_⟩
  · rw [hkeys]; exact h0
  · rw [hkeys]; exact h1
  · intro p hp
    rcases List.mem_map.mp hp with ⟨q, hq, rfl⟩
    exact ⟨by rw [Store.get?_set_ne _ _ _ _ (by decide), Store.get?_set_self],
      by rw [Store.get?_set_self]⟩

/-- Witness for the amended C7 at the concrete registry `csC6` with collaborator
`c6optF`. -/
theorem C7_probe_cleanup_witness :
    ∃ cs2, csC6.improve_pareto_norm_factors c6optF 1 "REF" = .ok cs2 ∧
      Registry.keys cs2.scens = Registry.keys csC6.scens ∧
      "0" ∉ Registry.keys cs2.scens ∧ "1" ∉ Registry.keys cs2.scens ∧
      ∃ kC kCE : ℚ, ∀ p ∈ cs2.scens,
        Store.get? p.2.params "k_PTO_C_" = some (.num kC) ∧
        Store.get? p.2.params "k_PTO_CE_" = some (.num kCE) :=
  C7_probe_cleanup csC6 c6optF 1 100 300 40 60 "REF" c6ref
    [("C_TOT_", Val.num 100), ("CE_TOT_", Val.num 40)]
    [("C_TOT_", Val.num 300), ("CE_TOT_", Val.num 60)]
    (by decide) (by decide) (by decide) (by decide) (by decide) (by decide)
    (by decide) (by decide) (by decide)

end Draf
